import Mathlib

/-!
Shallow embedding of the pioneer-autotime-worker geofence auto-clockout engine.

The definitions below are translated from the TypeScript sources:
* `track-location` edge function (geofence math, exit classifier),
* `supabase/functions/check-grace-expiry/index.ts` (grace resolver sweep),
* `supabase/functions/check-ot-autoclockout/index.ts` (overtime monitor sweep),
* `supabase/functions/check-clock-status/index.ts` (overtime variant with cap).

Timestamps are modelled as milliseconds since the epoch (`Int`); JavaScript
floating-point quantities (distances, accuracies, hours) are modelled as `ℚ`.
-/

namespace Autotime

/-- Constants from the sources. -/
def GRACE_MINUTES : Int := 4

def RACE_BUFFER_SEC : Int := 60

/-- `(GRACE_MINUTES * 60 + RACE_BUFFER_SEC) * 1000` = 5 minutes in ms. -/
def AUTO_DELAY_MS : Int := (GRACE_MINUTES * 60 + RACE_BUFFER_SEC) * 1000

def ACCURACY_PASS_M : ℚ := 50

def AUTO_WINDOW_MINUTES : Int := 60

def MAX_OT_HOURS : ℚ := 3

/-- `getSafeOutThreshold` from `track-location`: the `SAFE_OUT_TABLE` lookup,
falling back to `radius * 1.25` (JS `SAFE_OUT_TABLE[radius] || radius * 1.25`;
every table value is nonzero so the JS `||` is an ordinary table miss). -/
def getSafeOutThreshold (radius : ℚ) : ℚ :=
  if radius = 50 then 90
  else if radius = 100 then 150
  else if radius = 200 then 260
  else if radius = 300 then 380
  else if radius = 400 then 500
  else if radius = 500 then 625
  else radius * (5 / 4)

/-- `reliableExit` from `track-location`. -/
def reliableExit (distance accuracy radius threshold : ℚ) : Bool :=
  if distance ≥ threshold then true
  else if accuracy ≤ ACCURACY_PASS_M ∧ distance ≥ radius + max 25 (accuracy / 2) then true
  else false

/-- `checkLastHourWindow` from `track-location`.  Both `now` and the shift-end
datetime are built on the current day, so the comparison only involves the
time-of-day; `nowMsOfDay` is the current local time in milliseconds since
midnight, and the shift end is the parsed `(hour, minute)`. -/
def checkLastHourWindow (nowMsOfDay : Int) (hour minute : Nat) : Bool :=
  let shiftEndMs : Int := ((hour * 60 + minute : Nat) : Int) * 60000
  let windowStart : Int := shiftEndMs - AUTO_WINDOW_MINUTES * 60 * 1000
  decide (windowStart ≤ nowMsOfDay ∧ nowMsOfDay ≤ shiftEndMs)

/-- The worker's `shift_end` column as seen by `track-location`: missing,
present but unparsable, or parsed to `(hour, minute)`. -/
inductive ShiftEndField
  | missing
  | malformed
  | parsed (hour minute : Nat)
deriving DecidableEq, Repr

/-- Status codes returned by the `track-location` exit classifier. -/
inductive TrackStatus
  | not_clocked_in
  | invalid_job_data
  | geofence_disabled
  | no_shift_end
  | invalid_shift_end
  | outside_window
  | inside_fence
  | exit_detected
deriving DecidableEq, Repr

/-- The branch structure of the `track-location` handler (steps 1-8 of the
source), with the database reads abstracted into inputs: `clockedIn` is the
open-session lookup, `jobValid` the coordinate/radius validation,
`distance` the haversine result.  Returns the status code; an
`exit_detected` event row is written exactly when the result is
`.exit_detected`. -/
def trackLocation (clockedIn jobValid geofenceEnabled isOvertime : Bool)
    (distance accuracy radius : ℚ) (shiftEnd : ShiftEndField)
    (nowMsOfDay : Int) : TrackStatus :=
  if clockedIn = false then .not_clocked_in
  else if jobValid = false then .invalid_job_data
  else if geofenceEnabled = false then .geofence_disabled
  else if isOvertime = false then
    match shiftEnd with
    | .missing => .no_shift_end
    | .malformed => .invalid_shift_end
    | .parsed h m =>
      if checkLastHourWindow nowMsOfDay h m then
        if reliableExit distance accuracy radius (getSafeOutThreshold radius) then
          .exit_detected
        else .inside_fence
      else .outside_window
  else
    if reliableExit distance accuracy radius (getSafeOutThreshold radius) then
      .exit_detected
    else .inside_fence

/-- Geofence event types (`event_type` column). -/
inductive EventType
  | location_fix
  | exit_detected
  | re_entry
  | exit_confirmed
deriving DecidableEq, Repr

/-- One `geofence_events` row. -/
structure GeofenceEvent where
  id : Nat
  worker_id : Nat
  clock_entry_id : Nat
  event_type : EventType
  latitude : ℚ
  longitude : ℚ
  accuracy : ℚ
  distance_from_center : ℚ
  job_radius : ℚ
  safe_out_threshold : ℚ
  timestamp : Int
  resolved_at : Option Int
deriving DecidableEq, Repr

/-- The evidentiary `geofence_exit_data` JSON written on finalize. -/
structure GeofenceExitData where
  distance : ℚ
  accuracy : ℚ
  threshold : ℚ
  radius : ℚ
deriving DecidableEq, Repr

/-- One `clock_entries` row (a session). -/
structure ClockEntry where
  id : Nat
  worker_id : Nat
  clock_in : Int
  clock_out : Option Int
  clock_out_lat : Option ℚ
  clock_out_lng : Option ℚ
  auto_clocked_out : Bool
  auto_clockout_type : Option String
  auto_clockout_reason : Option String
  total_hours : Option ℚ
  geofence_exit_data : Option GeofenceExitData
  is_overtime : Bool
deriving DecidableEq, Repr

/-- Deduplication keys, modelled structurally instead of as formatted
strings: `worker:date:type` in the grace resolver and check-clock-status,
`ot_auto_id_time` in check-ot-autoclockout. -/
inductive DedupeKey
  | geofenceDaily (worker : Nat) (day : Int)
  | otAuto (entryId : Nat) (clockOutMs : Int)
deriving DecidableEq, Repr

/-- One inserted `notifications` row. -/
structure Notification where
  worker_id : Nat
  ntype : String
  dedupe_key : DedupeKey
deriving DecidableEq, Repr

/-- The shared persisted state the sweeps operate on. -/
structure DBState where
  entries : List ClockEntry
  events : List GeofenceEvent
  notifications : List Notification
deriving DecidableEq, Repr

/-- Day component of an epoch-ms timestamp (the ISO date part). -/
def msToDay (t : Int) : Int := Int.fdiv t 86400000

/-- Fresh row id for an inserted geofence event (the database generates ids;
any id distinct from all existing ones is faithful). -/
def freshEventId (events : List GeofenceEvent) : Nat :=
  (events.foldr (fun e acc => max e.id acc) 0) + 1

/-- JS `x || y` on numbers: `y` when `x` is falsy (zero). -/
def jsOr (x y : ℚ) : ℚ := if x = 0 then y else x

/-- The conditional finalizing update of `check-grace-expiry` (step 4),
row-wise: only the row with the exit's `clock_entry_id` whose `clock_out` is
still NULL is mutated (`.eq("id", ...).is("clock_out", null)`). -/
def graceUpdateRow (ex : GeofenceEvent) (totalHours : ℚ) (c : ClockEntry) :
    ClockEntry :=
  if c.id = ex.clock_entry_id ∧ c.clock_out = none then
    { c with
      clock_out := some ex.timestamp,
      clock_out_lat := some ex.latitude,
      clock_out_lng := some ex.longitude,
      auto_clocked_out := true,
      auto_clockout_type := some "geofence",
      total_hours := some totalHours,
      geofence_exit_data := some
        ⟨ex.distance_from_center, ex.accuracy, ex.safe_out_threshold,
          ex.job_radius⟩ }
  else c

/-- One candidate `exit_detected` row of the `check-grace-expiry` loop
(steps 2 to 6 of the source). -/
def processExit (now : Int) (st : DBState) (ex : GeofenceEvent) : DBState :=
  if st.events.any (fun e =>
      decide (e.clock_entry_id = ex.clock_entry_id ∧
        (e.event_type = .re_entry ∨ e.event_type = .exit_confirmed))) then
    { st with events := st.events.filter (fun e => decide (e.id ≠ ex.id)) }
  else
    let recentFixes := st.events.filter (fun e =>
      decide (e.clock_entry_id = ex.clock_entry_id ∧
        e.event_type = .location_fix ∧ ex.timestamp < e.timestamp))
    if recentFixes.any (fun f =>
        decide (f.distance_from_center ≤ f.job_radius ∧
          f.accuracy ≤ ACCURACY_PASS_M)) then
      let mostRecentFix := recentFixes.find? (fun f =>
        decide (f.distance_from_center ≤ f.job_radius ∧
          f.accuracy ≤ ACCURACY_PASS_M))
      let reEntryRow : GeofenceEvent :=
        { id := freshEventId st.events,
          worker_id := ex.worker_id,
          clock_entry_id := ex.clock_entry_id,
          event_type := .re_entry,
          latitude := ex.latitude,
          longitude := ex.longitude,
          accuracy :=
            jsOr ((mostRecentFix.map GeofenceEvent.accuracy).getD 0) ex.accuracy,
          distance_from_center :=
            jsOr ((mostRecentFix.map GeofenceEvent.distance_from_center).getD 0)
              ex.distance_from_center,
          job_radius := ex.job_radius,
          safe_out_threshold := ex.safe_out_threshold,
          timestamp := now,
          resolved_at := none }
      { st with
        events := (st.events ++ [reEntryRow]).filter (fun e => decide (e.id ≠ ex.id)) }
    else
      match st.entries.find? (fun c => decide (c.id = ex.clock_entry_id)) with
      | none => st
      | some ce =>
        if ce.is_overtime then st
        else if ce.clock_out.isSome ∧ ce.auto_clocked_out = false then st
        else
          let totalHours : ℚ := ((ex.timestamp - ce.clock_in : Int) : ℚ) / 3600000
          let confirmRow : GeofenceEvent :=
            { id := freshEventId st.events,
              worker_id := ex.worker_id,
              clock_entry_id := ex.clock_entry_id,
              event_type := .exit_confirmed,
              latitude := ex.latitude,
              longitude := ex.longitude,
              accuracy := ex.accuracy,
              distance_from_center := ex.distance_from_center,
              job_radius := ex.job_radius,
              safe_out_threshold := ex.safe_out_threshold,
              timestamp := ex.timestamp,
              resolved_at := none }
          let notif : Notification :=
            { worker_id := ex.worker_id,
              ntype := "geofence_auto_clockout",
              dedupe_key := .geofenceDaily ex.worker_id (msToDay ex.timestamp) }
          { entries := st.entries.map (graceUpdateRow ex totalHours),
            events := (st.events ++ [confirmRow]).filter (fun e => decide (e.id ≠ ex.id)),
            notifications := st.notifications ++ [notif] }

/-- The `check-grace-expiry` sweep: purge stale `exit_detected` rows older
than 24 h, select the `exit_detected` rows between the retention cutoff and
the 5-minute grace cutoff, and process each in order. -/
def graceSweep (now : Int) (st : DBState) : DBState :=
  let staleThreshold := now - 24 * 60 * 60 * 1000
  let cutoff := now - AUTO_DELAY_MS
  let st1 : DBState :=
    { st with events := st.events.filter (fun e =>
        decide (¬(e.event_type = .exit_detected ∧ e.timestamp < staleThreshold))) }
  let exits := st1.events.filter (fun e =>
    decide (e.event_type = .exit_detected ∧ e.timestamp < cutoff ∧
      staleThreshold < e.timestamp))
  exits.foldl (processExit now) st1

/-- The finalizing update of `check-ot-autoclockout`'s `autoClockOut`,
row-wise: matched on `id` alone (`.eq('id', entry.id)`; there is no
`clock_out IS NULL` condition in the source). -/
def otUpdateRow (entryId : Nat) (nowMs : Int) (reason : String)
    (totalHours : ℚ) (c : ClockEntry) : ClockEntry :=
  if c.id = entryId then
    { c with
      clock_out := some nowMs,
      auto_clocked_out := true,
      auto_clockout_reason := some reason,
      total_hours := some totalHours }
  else c

/-- `autoClockOut` from `check-ot-autoclockout`: update the clock entry with
the uncapped elapsed hours, resolve pending `exit_detected` rows, and insert
the notification. -/
def otAutoClockOut (now : Int) (entryId workerId : Nat) (clockIn : Int)
    (reason : String) (st : DBState) : DBState :=
  let totalHours : ℚ := ((now - clockIn : Int) : ℚ) / 3600000
  { entries := st.entries.map (otUpdateRow entryId now reason totalHours),
    events := st.events.map (fun e =>
      if e.clock_entry_id = entryId ∧ e.event_type = .exit_detected ∧
          e.resolved_at = none then
        { e with resolved_at := some now }
      else e),
    notifications := st.notifications ++
      [{ worker_id := workerId, ntype := "overtime_auto_clockout",
         dedupe_key := .otAuto entryId now }] }

def GRACE_PERIOD_MINUTES : Int := 5

/-- The earliest unresolved exit (the source orders by timestamp descending
and takes the last element of the result). -/
def earliestExit (l : List GeofenceEvent) : Option GeofenceEvent :=
  l.foldl (fun acc e =>
    match acc with
    | none => some e
    | some b => if e.timestamp < b.timestamp then some e else some b) none

/-- The per-entry body of the `check-ot-autoclockout` loop: clock out on an
unresolved exit older than the 5-minute grace period, otherwise on the
3-hour limit.  The reason strings in the source embed a locale-formatted
time; only their fixed prefix is kept here (no claim depends on the text). -/
def otSweepEntry (now : Int) (st : DBState) (entry : ClockEntry) : DBState :=
  let hoursWorked : ℚ := ((now - entry.clock_in : Int) : ℚ) / 3600000
  let exitEvents := st.events.filter (fun e =>
    decide (e.clock_entry_id = entry.id ∧ e.event_type = .exit_detected ∧
      e.resolved_at = none))
  match earliestExit exitEvents with
  | some fe =>
    if GRACE_PERIOD_MINUTES * 60 * 1000 ≤ now - fe.timestamp then
      otAutoClockOut now entry.id entry.worker_id entry.clock_in
        "Left job site during overtime" st
    else if MAX_OT_HOURS ≤ hoursWorked then
      otAutoClockOut now entry.id entry.worker_id entry.clock_in
        "Maximum 3-hour overtime limit reached" st
    else st
  | none =>
    if MAX_OT_HOURS ≤ hoursWorked then
      otAutoClockOut now entry.id entry.worker_id entry.clock_in
        "Maximum 3-hour overtime limit reached" st
    else st

/-- The `check-ot-autoclockout` sweep: all overtime entries with
`clock_out IS NULL`, processed in order. -/
def otSweep (now : Int) (st : DBState) : DBState :=
  let activeOTs := st.entries.filter (fun c =>
    c.is_overtime && decide (c.clock_out = none))
  activeOTs.foldl (otSweepEntry now) st

/-- The recorded hours of `autoClockOutOT` in `check-clock-status`:
`forcedHours ?? max(0, actualHrs)`, then capped at 3. -/
def autoClockOutOT_total (clockIn now : Int) (forcedHours : Option ℚ) : ℚ :=
  let actualHrs : ℚ := ((now - clockIn : Int) : ℚ) / 3600000
  let totalHrs := forcedHours.getD (max 0 actualHrs)
  if totalHrs > 3 then 3 else totalHrs

/-- The per-entry decision of `checkActiveOvertimeSessions` in
`check-clock-status`: `some h` when the entry is finalized with recorded
hours `h`, `none` when it is left open.  `exitGraceElapsed` abstracts the
unresolved-exit-older-than-5-minutes test; the 3-hour branch passes forced
hours 3, the catch-up branch (elapsed beyond 3.167 h) also passes 3, the
geofence branch passes the actual elapsed hours. -/
def ccsRecordedHours (clockIn now : Int) (exitGraceElapsed : Bool) : Option ℚ :=
  let hrs : ℚ := ((now - clockIn : Int) : ℚ) / 3600000
  if exitGraceElapsed then some (autoClockOutOT_total clockIn now (some hrs))
  else if 3 ≤ hrs ∧ hrs ≤ 3167 / 1000 then
    some (autoClockOutOT_total clockIn now (some 3))
  else if 3167 / 1000 < hrs then some (autoClockOutOT_total clockIn now (some 3))
  else none


end Autotime

open Autotime

/-- C7: `reliableExit(distance, accuracy, radius, threshold)` is true iff
`distance ≥ threshold`, or `accuracy ≤ 50` and
`distance ≥ radius + max(25, accuracy/2)`. -/
theorem reliableExit_iff (d a r t : ℚ) :
    reliableExit d a r t = true ↔ (t ≤ d ∨ (a ≤ 50 ∧ r + max 25 (a / 2) ≤ d)) := by
  unfold reliableExit ACCURACY_PASS_M
  split
  · simp_all
  · split
    · simp_all
    · simp_all [not_or]

/-- C8: `getSafeOutThreshold` returns the tabulated value on each table key
{50→90, 100→150, 200→260, 300→380, 400→500, 500→625}, and `1.25·r` for any
other positive radius. -/
theorem getSafeOutThreshold_spec :
    (getSafeOutThreshold 50 = 90 ∧ getSafeOutThreshold 100 = 150 ∧
     getSafeOutThreshold 200 = 260 ∧ getSafeOutThreshold 300 = 380 ∧
     getSafeOutThreshold 400 = 500 ∧ getSafeOutThreshold 500 = 625) ∧
    ∀ r : ℚ, 0 < r →
      r ∉ ({50, 100, 200, 300, 400, 500} : Set ℚ) →
      getSafeOutThreshold r = (5 / 4) * r := by
  constructor
  · refine ⟨by decide, by decide, by decide, by decide, by decide, by decide⟩
  · intro r _ hmem
    simp only [Set.mem_insert_iff, Set.mem_singleton_iff, not_or] at hmem
    obtain ⟨h1, h2, h3, h4, h5, h6⟩ := hmem
    unfold getSafeOutThreshold
    rw [if_neg h1, if_neg h2, if_neg h3, if_neg h4, if_neg h5, if_neg h6]
    ring

/-- Witness for `getSafeOutThreshold_spec` at radius 80 (not in the table). -/
theorem getSafeOutThreshold_spec_witness :
    getSafeOutThreshold 80 = (5 / 4) * 80 :=
  getSafeOutThreshold_spec.2 80 (by norm_num) (by norm_num)

/-- The safe-out threshold strictly exceeds the radius for every positive
radius: each table value exceeds its key, and `1.25·r > r` for `r > 0`. -/
theorem radius_lt_getSafeOutThreshold (r : ℚ) (hr : 0 < r) :
    r < getSafeOutThreshold r := by
  unfold getSafeOutThreshold
  split
  · linarith [show r = 50 by assumption]
  · split
    · linarith [show r = 100 by assumption]
    · split
      · linarith [show r = 200 by assumption]
      · split
        · linarith [show r = 300 by assumption]
        · split
          · linarith [show r = 400 by assumption]
          · split
            · linarith [show r = 500 by assumption]
            · nlinarith

/-- C10: a fix at or inside the geofence boundary is never classified as a
reliable exit (with the threshold derived from the radius), and the exit
classifier therefore never returns `exit_detected` for such a fix. -/
theorem inside_fence_never_exit (d a r : ℚ) (hr : 0 < r) (hd : d ≤ r) :
    reliableExit d a r (getSafeOutThreshold r) = false ∧
    ∀ (clockedIn jobValid geofenceEnabled isOvertime : Bool)
      (shiftEnd : ShiftEndField) (nowMsOfDay : Int),
      trackLocation clockedIn jobValid geofenceEnabled isOvertime
        d a r shiftEnd nowMsOfDay ≠ .exit_detected := by
  have hlt := radius_lt_getSafeOutThreshold r hr
  have hexit : reliableExit d a r (getSafeOutThreshold r) = false := by
    have hA : ¬ d ≥ getSafeOutThreshold r := by linarith
    have hB : ¬ (a ≤ ACCURACY_PASS_M ∧ d ≥ r + max 25 (a / 2)) := by
      intro hand
      have h25 : (25 : ℚ) ≤ max 25 (a / 2) := le_max_left _ _
      linarith [hand.2]
    unfold reliableExit
    rw [if_neg hA, if_neg hB]
  refine ⟨hexit, ?_⟩
  intro clockedIn jobValid geofenceEnabled isOvertime shiftEnd nowMsOfDay
  cases clockedIn <;> cases jobValid <;> cases geofenceEnabled <;> cases isOvertime <;>
    cases shiftEnd <;>
    simp only [trackLocation, hexit] <;>
    (try split) <;> (try split) <;> (try split) <;> simp_all

/-- Witness for `inside_fence_never_exit`: a fix 40 m from center of a 50 m
fence, accuracy 10 m, is not an exit and the classifier reports
`inside_fence`. -/
theorem inside_fence_never_exit_witness :
    reliableExit 40 10 50 (getSafeOutThreshold 50) = false ∧
    trackLocation true true true true 40 10 50 .missing 0 ≠ .exit_detected :=
  ⟨(inside_fence_never_exit 40 10 50 (by norm_num) (by norm_num)).1,
   (inside_fence_never_exit 40 10 50 (by norm_num) (by norm_num)).2
     true true true true .missing 0⟩

/-- C6: for a regular session with parsed `shift_end = 17:00`, a sample at
local time 15:30 yields `outside_window`; one at 16:30 proceeds to the
reliable-exit test; in general the exit test runs exactly when the current
time lies in `[shift_end - 60 min, shift_end]`. -/
theorem window_gate_spec (d a r : ℚ) :
    (trackLocation true true true false d a r (.parsed 17 0) (930 * 60000) =
      .outside_window) ∧
    (trackLocation true true true false d a r (.parsed 17 0) (990 * 60000) =
      (if reliableExit d a r (getSafeOutThreshold r) then .exit_detected
       else .inside_fence)) ∧
    (∀ (h m : Nat) (now : Int),
      (trackLocation true true true false d a r (.parsed h m) now = .exit_detected ∨
       trackLocation true true true false d a r (.parsed h m) now = .inside_fence) ↔
      (((h * 60 + m : Nat) : Int) * 60000 - 3600000 ≤ now ∧
        now ≤ ((h * 60 + m : Nat) : Int) * 60000)) := by
  refine ⟨?_, ?_, ?_⟩
  · simp [trackLocation, checkLastHourWindow, AUTO_WINDOW_MINUTES]
  · simp [trackLocation, checkLastHourWindow, AUTO_WINDOW_MINUTES]
  · intro h m now
    unfold trackLocation checkLastHourWindow AUTO_WINDOW_MINUTES
    simp only [Bool.false_eq_true, if_false, if_true, decide_eq_true_eq]
    split_ifs with h1 h2 <;> simp_all

namespace Autotime

lemma graceUpdateRow_id (ex : GeofenceEvent) (h : ℚ) (c : ClockEntry) :
    (graceUpdateRow ex h c).id = c.id := by
  unfold graceUpdateRow
  split <;> rfl

lemma otUpdateRow_id (i : Nat) (n : Int) (r : String) (h : ℚ) (c : ClockEntry) :
    (otUpdateRow i n r h c).id = c.id := by
  unfold otUpdateRow
  split <;> rfl

/-- Case analysis of the effect of `processExit` on the session rows: they
are either untouched, or mapped through the conditional finalizing update
after the fetched entry turned out to be a non-overtime session. -/
lemma processExit_entries_cases (now : Int) (st : DBState) (ex : GeofenceEvent) :
    (processExit now st ex).entries = st.entries ∨
    ∃ ce, st.entries.find? (fun c => decide (c.id = ex.clock_entry_id)) = some ce ∧
      ce.is_overtime = false ∧
      (processExit now st ex).entries =
        st.entries.map
          (graceUpdateRow ex (((ex.timestamp - ce.clock_in : Int) : ℚ) / 3600000)) := by
  simp only [processExit]
  repeat' split
  all_goals try (left; rfl)
  all_goals
    right
    refine ⟨_, by assumption, ?_, rfl⟩
    simp_all

/-- `processExit` never adds, removes or re-keys session rows: the list of
entry ids is untouched. -/
lemma processExit_entries_ids (now : Int) (st : DBState) (ex : GeofenceEvent) :
    (processExit now st ex).entries.map ClockEntry.id =
      st.entries.map ClockEntry.id := by
  rcases processExit_entries_cases now st ex with h | ⟨ce, _, _, h⟩
  · rw [h]
  · rw [h, List.map_map]
    exact List.map_congr_left (fun c _ => graceUpdateRow_id ex _ c)

/-- In the finalize branch the fetched entry is not overtime; with unique ids
an overtime row therefore never matches the conditional update, so it
survives `processExit` unchanged. -/
lemma processExit_preserves_ot (now : Int) (st : DBState) (ex : GeofenceEvent)
    (c : ClockEntry) (hnd : (st.entries.map ClockEntry.id).Nodup)
    (hc : c ∈ st.entries) (hot : c.is_overtime = true) :
    c ∈ (processExit now st ex).entries := by
  rcases processExit_entries_cases now st ex with h | ⟨ce, hfind, hceot, h⟩
  · rw [h]; exact hc
  · rw [h]
    have hcemem : ce ∈ st.entries := List.mem_of_find?_eq_some hfind
    have hceid : ce.id = ex.clock_entry_id := by
      have := List.find?_some hfind
      simpa using this
    have hne : c.id ≠ ex.clock_entry_id := by
      intro hcid
      have hceq : c = ce :=
        List.inj_on_of_nodup_map hnd hc hcemem (by rw [hcid, hceid])
      rw [hceq, hceot] at hot
      exact Bool.false_ne_true hot
    have hfix : graceUpdateRow ex (((ex.timestamp - ce.clock_in : Int) : ℚ) / 3600000) c = c := by
      unfold graceUpdateRow
      rw [if_neg]
      intro hand
      exact hne hand.1
    exact List.mem_map.mpr ⟨c, hc, hfix⟩

/-- Folding `processExit` over any candidate list keeps every overtime row
untouched (the ids stay unique along the fold). -/
lemma foldl_processExit_preserves_ot (now : Int) (c : ClockEntry)
    (hot : c.is_overtime = true) :
    ∀ (l : List GeofenceEvent) (st : DBState),
      (st.entries.map ClockEntry.id).Nodup → c ∈ st.entries →
      c ∈ (l.foldl (processExit now) st).entries := by
  intro l
  induction l with
  | nil => intro st _ hc; exact hc
  | cons ex tl ih =>
    intro st hnd hc
    have h1 := processExit_preserves_ot now st ex c hnd hc hot
    have h2 : ((processExit now st ex).entries.map ClockEntry.id).Nodup := by
      rw [processExit_entries_ids]
      exact hnd
    exact ih _ h2 h1

lemma otSweepEntry_preserves (now : Int) (st : DBState) (e c : ClockEntry)
    (hc : c ∈ st.entries) (hne : c.id ≠ e.id) :
    c ∈ (otSweepEntry now st e).entries := by
  have hfix : ∀ (r : String) (h : ℚ), otUpdateRow e.id now r h c = c := by
    intro r h
    unfold otUpdateRow
    rw [if_neg hne]
  simp only [otSweepEntry, otAutoClockOut]
  repeat' split
  all_goals first
    | exact hc
    | exact List.mem_map.mpr ⟨c, hc, hfix _ _⟩

lemma foldl_otSweepEntry_preserves (now : Int) (c : ClockEntry) :
    ∀ (l : List ClockEntry) (st : DBState),
      (∀ e ∈ l, c.id ≠ e.id) → c ∈ st.entries →
      c ∈ (l.foldl (otSweepEntry now) st).entries := by
  intro l
  induction l with
  | nil => intro st _ hc; exact hc
  | cons e tl ih =>
    intro st hl hc
    exact ih _ (fun x hx => hl x (List.mem_cons_of_mem _ hx))
      (otSweepEntry_preserves now st e c hc (hl e (List.mem_cons_self _ _)))

/-- The Overtime Monitor sweep only selects entries with `clock_out IS NULL`;
with unique entry ids, a session already closed at selection time is never
matched by any of the sweep's updates. -/
lemma otSweep_preserves_closed (now : Int) (st : DBState) (c : ClockEntry)
    (t : Int) (hnd : (st.entries.map ClockEntry.id).Nodup)
    (hc : c ∈ st.entries) (hct : c.clock_out = some t) :
    c ∈ (otSweep now st).entries := by
  unfold otSweep
  refine foldl_otSweepEntry_preserves now c _ st ?_ hc
  intro e he hid
  have he' := List.mem_filter.mp he
  have hopen : e.clock_out = none := by
    have h2 := he'.2
    simp only [Bool.and_eq_true, decide_eq_true_eq] at h2
    exact h2.2
  have hceq : c = e := List.inj_on_of_nodup_map hnd hc he'.1 hid
  rw [hceq, hopen] at hct
  exact Option.noConfusion hct

end Autotime

/-- C9: the Grace Resolver never sets `clock_out` on an overtime session:
whatever candidate `exit_detected` rows the sweep processes, every session
row with `is_overtime = true` survives the whole sweep unchanged (under the
primary-key property that entry ids are unique). -/
theorem graceSweep_skips_overtime (now : Int) (st : DBState) (c : ClockEntry)
    (hnd : (st.entries.map ClockEntry.id).Nodup)
    (hc : c ∈ st.entries) (hot : c.is_overtime = true) :
    c ∈ (graceSweep now st).entries := by
  unfold graceSweep
  exact foldl_processExit_preserves_ot now c hot _ _ hnd hc

namespace Autotime

/-- An open overtime session used in concrete instances. -/
def otEntryW : ClockEntry :=
  { id := 3, worker_id := 5, clock_in := 0, clock_out := none,
    clock_out_lat := none, clock_out_lng := none, auto_clocked_out := false,
    auto_clockout_type := none, auto_clockout_reason := none, total_hours := none,
    geofence_exit_data := none, is_overtime := true }

/-- An unresolved `exit_detected` row for `otEntryW`, 7 minutes old at
sweep time 1420000 ms. -/
def otExitW : GeofenceEvent :=
  { id := 30, worker_id := 5, clock_entry_id := 3, event_type := .exit_detected,
    latitude := 0, longitude := 0, accuracy := 10, distance_from_center := 200,
    job_radius := 50, safe_out_threshold := 90, timestamp := 1000000,
    resolved_at := none }

end Autotime

/-- Witness: a 7-minute-old exit for an open overtime session is selected by
the grace sweep, yet the overtime session row is untouched. -/
theorem graceSweep_skips_overtime_witness :
    otEntryW ∈ (graceSweep 1420000 ⟨[otEntryW], [otExitW], []⟩).entries :=
  graceSweep_skips_overtime 1420000 ⟨[otEntryW], [otExitW], []⟩ otEntryW
    (by decide) (by decide) (by decide)

namespace Autotime

/-- A session already clocked out (at 100 ms) before a racing overtime
auto-clockout write lands. -/
def closedEntry : ClockEntry :=
  { id := 1, worker_id := 7, clock_in := 0, clock_out := some 100,
    clock_out_lat := none, clock_out_lng := none, auto_clocked_out := false,
    auto_clockout_type := none, auto_clockout_reason := none, total_hours := none,
    geofence_exit_data := none, is_overtime := true }

/-- An open overtime session that has been running 4.5 hours at sweep time
16200000 ms. -/
def otOpenEntry : ClockEntry :=
  { id := 2, worker_id := 9, clock_in := 0, clock_out := none,
    clock_out_lat := none, clock_out_lng := none, auto_clocked_out := false,
    auto_clockout_type := none, auto_clockout_reason := none, total_hours := none,
    geofence_exit_data := none, is_overtime := true }

end Autotime

/-- C1 counterexample: `check-ot-autoclockout`'s finalizing write is keyed on
the row id alone (no `clock_out IS NULL` condition), so invoking the
overtime auto-clockout on a session whose `clock_out` is already set
(100 ms) does not leave the row unchanged — it overwrites `clock_out`. -/
theorem ot_write_unguarded_cex :
    closedEntry.clock_out = some 100 ∧
    (otAutoClockOut 200 1 7 0 "Left job site during overtime"
        ⟨[closedEntry], [], []⟩).entries ≠ [closedEntry] ∧
    (otAutoClockOut 200 1 7 0 "Left job site during overtime"
        ⟨[closedEntry], [], []⟩).entries.map ClockEntry.clock_out = [some 200] := by
  refine ⟨rfl, ?_, ?_⟩ <;> decide

/-- C1 amended: only the Grace Resolver's finalizing write carries the
`clock_out IS NULL` guard, making it a no-op row-wise on an already-closed
session; the Overtime Monitor's `autoClockOut` write is keyed on id alone,
and an already-closed session is protected only by the sweep's selection
filter (`clock_out IS NULL` in the select), so a whole overtime sweep run
against an unchanged state leaves such a session untouched even though the
bare write would overwrite it. -/
theorem clockout_guard_spec :
    (∀ (ex : GeofenceEvent) (h : ℚ) (c : ClockEntry) (t : Int),
      c.clock_out = some t → graceUpdateRow ex h c = c) ∧
    (∀ (now : Int) (st : DBState) (c : ClockEntry) (t : Int),
      (st.entries.map ClockEntry.id).Nodup → c ∈ st.entries →
      c.clock_out = some t → c ∈ (otSweep now st).entries) := by
  constructor
  · intro ex h c t hct
    unfold graceUpdateRow
    rw [if_neg]
    intro hand
    rw [hct] at hand
    exact Option.noConfusion hand.2
  · intro now st c t hnd hc hct
    exact otSweep_preserves_closed now st c t hnd hc hct

/-- Witness for `clockout_guard_spec`: the grace update is a no-op on
`closedEntry`, and an overtime sweep leaves `closedEntry` in place. -/
theorem clockout_guard_spec_witness :
    graceUpdateRow otExitW (1 / 2) closedEntry = closedEntry ∧
    closedEntry ∈ (otSweep 16200000 ⟨[closedEntry], [], []⟩).entries :=
  ⟨clockout_guard_spec.1 otExitW (1 / 2) closedEntry 100 rfl,
   clockout_guard_spec.2 16200000 ⟨[closedEntry], [], []⟩ closedEntry 100
     (by decide) (by decide) rfl⟩

/-- C2 counterexample: an overtime session open 4.5 h with no exit event is
finalized by the `check-ot-autoclockout` monitor with `total_hours` = 4.5
(the uncapped elapsed time), not 3.0. -/
theorem ot_cap_cex :
    (otSweep 16200000 ⟨[otOpenEntry], [], []⟩).entries.map ClockEntry.clock_out
      = [some 16200000] ∧
    (otSweep 16200000 ⟨[otOpenEntry], [], []⟩).entries.map ClockEntry.total_hours
      = [some (9 / 2)] ∧
    (9 / 2 : ℚ) ≠ 3 := by
  refine ⟨?_, ?_, by norm_num⟩ <;>
    norm_num [otSweep, otSweepEntry, otAutoClockOut, otUpdateRow, earliestExit,
      otOpenEntry, MAX_OT_HOURS, GRACE_PERIOD_MINUTES]

/-- C2 amended: the `check-clock-status` overtime monitor records
`total_hours` capped at 3 for every finalized entry — exactly 3 whenever at
least 3 hours have elapsed on the time-limit path — while
`check-ot-autoclockout`'s `autoClockOut` records the uncapped elapsed hours
on the row it finalizes. -/
theorem ot_hours_spec :
    (∀ (cIn now : Int) (b : Bool) (h : ℚ),
      ccsRecordedHours cIn now b = some h → h ≤ 3) ∧
    (∀ cIn now : Int, 3 ≤ ((now - cIn : Int) : ℚ) / 3600000 →
      ccsRecordedHours cIn now false = some 3) ∧
    (∀ (now : Int) (i w : Nat) (cIn : Int) (r : String) (st : DBState)
      (c : ClockEntry), c ∈ st.entries → c.id = i →
      { c with
          clock_out := some now,
          auto_clocked_out := true,
          auto_clockout_reason := some r,
          total_hours := some (((now - cIn : Int) : ℚ) / 3600000) } ∈
        (otAutoClockOut now i w cIn r st).entries) := by
  refine ⟨?_, ?_, ?_⟩
  · intro cIn now b h
    simp only [ccsRecordedHours, autoClockOutOT_total, Option.getD_some]
    split_ifs <;> intro heq <;>
      first
        | exact heq.elim
        | exact Option.noConfusion heq
        | (rw [Option.some_inj] at heq; subst heq; linarith)
  · intro cIn now h3
    simp only [ccsRecordedHours, autoClockOutOT_total, Option.getD_some,
      Bool.false_eq_true, if_false]
    by_cases h1 : ((now - cIn : Int) : ℚ) / 3600000 ≤ 3167 / 1000
    · rw [if_pos ⟨h3, h1⟩]
      norm_num
    · rw [if_neg (fun hand => h1 hand.2), if_pos (not_le.mp h1)]
      norm_num
  · intro now i w cIn r st c hc hid
    simp only [otAutoClockOut]
    refine List.mem_map.mpr ⟨c, hc, ?_⟩
    unfold otUpdateRow
    rw [if_pos hid]

/-- Witness for `ot_hours_spec`: at clock-in 0 and sweep time 16200000 ms
(4.5 h elapsed) the check-clock-status monitor records exactly 3 hours,
while the check-ot-autoclockout write records 4.5 hours on the row. -/
theorem ot_hours_spec_witness :
    ccsRecordedHours 0 16200000 false = some 3 ∧
    { otOpenEntry with
        clock_out := some 16200000,
        auto_clocked_out := true,
        auto_clockout_reason := some "Maximum 3-hour overtime limit reached",
        total_hours := some (((16200000 - 0 : Int) : ℚ) / 3600000) } ∈
        (otAutoClockOut 16200000 2 9 0 "Maximum 3-hour overtime limit reached"
          ⟨[otOpenEntry], [], []⟩).entries :=
  ⟨ot_hours_spec.2.1 0 16200000 (by norm_num),
   ot_hours_spec.2.2 16200000 2 9 0 "Maximum 3-hour overtime limit reached"
     ⟨[otOpenEntry], [], []⟩ otOpenEntry (by decide) rfl⟩

namespace Autotime

/-- An open non-overtime session with clock_in `T0` (id 1, worker 7). -/
def regEntry (T0 : Int) : ClockEntry :=
  { id := 1, worker_id := 7, clock_in := T0, clock_out := none,
    clock_out_lat := none, clock_out_lng := none, auto_clocked_out := false,
    auto_clockout_type := none, auto_clockout_reason := none, total_hours := none,
    geofence_exit_data := none, is_overtime := false }

/-- An unresolved `exit_detected` row for `regEntry` at time `T1`. -/
def exitEv (T1 : Int) : GeofenceEvent :=
  { id := 10, worker_id := 7, clock_entry_id := 1, event_type := .exit_detected,
    latitude := 1, longitude := 2, accuracy := 30, distance_from_center := 120,
    job_radius := 50, safe_out_threshold := 90, timestamp := T1,
    resolved_at := none }

/-- One open session with one pending exit and nothing else. -/
def graceScenario (T0 T1 : Int) : DBState :=
  ⟨[regEntry T0], [exitEv T1], []⟩

/-- The session row after grace finalization. -/
def finalizedEntry (T0 T1 : Int) : ClockEntry :=
  { id := 1, worker_id := 7, clock_in := T0, clock_out := some T1,
    clock_out_lat := some 1, clock_out_lng := some 2, auto_clocked_out := true,
    auto_clockout_type := some "geofence", auto_clockout_reason := none,
    total_hours := some (((T1 - T0 : Int) : ℚ) / 3600000),
    geofence_exit_data := some ⟨120, 30, 90, 50⟩, is_overtime := false }

/-- The `exit_confirmed` row written by finalization. -/
def confirmedEv (T1 : Int) : GeofenceEvent :=
  { id := 11, worker_id := 7, clock_entry_id := 1, event_type := .exit_confirmed,
    latitude := 1, longitude := 2, accuracy := 30, distance_from_center := 120,
    job_radius := 50, safe_out_threshold := 90, timestamp := T1,
    resolved_at := none }

/-- The notification inserted by finalization. -/
def graceNotif (T1 : Int) : Notification :=
  { worker_id := 7, ntype := "geofence_auto_clockout",
    dedupe_key := .geofenceDaily 7 (msToDay T1) }

/-- Evaluating the grace sweep on `graceScenario` when the exit is older than
the 5-minute grace cutoff and newer than the 24-hour retention cutoff. -/
lemma graceSweep_scenario_eval (T0 T1 now : Int)
    (hgrace : T1 < now - 300000) (hfresh : now - 86400000 < T1) :
    graceSweep now (graceScenario T0 T1) =
      ⟨[finalizedEntry T0 T1], [confirmedEv T1], [graceNotif T1]⟩ := by
  have h3 : ¬ T1 < now - 86400000 := by omega
  have h4 : now ≤ T1 + 86400000 := by omega
  simp [graceSweep, graceScenario, processExit, regEntry, exitEv,
    finalizedEntry, confirmedEv, graceNotif, graceUpdateRow, freshEventId,
    AUTO_DELAY_MS, GRACE_MINUTES, RACE_BUFFER_SEC, List.filter_cons,
    List.filter_nil, List.foldl_cons, List.foldl_nil, List.any_cons,
    List.any_nil, hgrace, hfresh, h3, h4]

/-- A grace sweep over a state with no `exit_detected` rows changes
nothing. -/
lemma graceSweep_no_exits (now : Int) (st : DBState)
    (h : ∀ e ∈ st.events, e.event_type ≠ EventType.exit_detected) :
    graceSweep now st = st := by
  have hfil : ∀ a : Int, st.events.filter
      (fun e => decide (¬(e.event_type = EventType.exit_detected ∧
        e.timestamp < a))) = st.events := by
    intro a
    refine List.filter_eq_self.mpr (fun e he => ?_)
    simp only [decide_eq_true_eq]
    intro hand
    exact h e he hand.1
  have hex : ∀ a b : Int, st.events.filter
      (fun e => decide (e.event_type = EventType.exit_detected ∧
        e.timestamp < a ∧ b < e.timestamp)) = [] := by
    intro a b
    refine List.filter_eq_nil_iff.mpr (fun e he => ?_)
    simp only [decide_eq_true_eq, not_and]
    intro hty
    exact absurd hty (h e he)
  unfold graceSweep
  simp only [hfil, hex, List.foldl_nil]

end Autotime

/-- C3 counterexample: at `T0 = 0`, `T1 = 3600000`, sweep time `7200000` the
grace resolver finalizes the session with `clock_out = T1`, but writes
`auto_clockout_type = "geofence"`, not `"geofence_based"`. -/
theorem grace_type_cex :
    (graceSweep 7200000 (graceScenario 0 3600000)).entries.map
        ClockEntry.clock_out = [some 3600000] ∧
    (graceSweep 7200000 (graceScenario 0 3600000)).entries.map
        ClockEntry.auto_clockout_type ≠ [some "geofence_based"] := by
  have h := graceSweep_scenario_eval 0 3600000 7200000 (by norm_num) (by norm_num)
  rw [h]
  refine ⟨rfl, ?_⟩
  simp [finalizedEntry]

/-- C3 amended: finalizing a non-overtime session from an unresolved
`exit_detected` at `T1` (clock_in `T0`, no re-entry, grace elapsed) sets
`clock_out = T1` (the exit's timestamp, not the sweep time),
`total_hours = (T1 - T0)` in hours, `auto_clocked_out = true`, the
evidentiary geofence data, and `auto_clockout_type = "geofence"` (the
source string; the spec's enum calls this case `geofence_based`). -/
theorem grace_finalize_spec (T0 T1 now : Int)
    (hgrace : T1 < now - 300000) (hfresh : now - 86400000 < T1) :
    (graceSweep now (graceScenario T0 T1)).entries =
      [{ regEntry T0 with
          clock_out := some T1,
          clock_out_lat := some 1,
          clock_out_lng := some 2,
          auto_clocked_out := true,
          auto_clockout_type := some "geofence",
          total_hours := some (((T1 - T0 : Int) : ℚ) / 3600000),
          geofence_exit_data := some ⟨120, 30, 90, 50⟩ }] := by
  rw [graceSweep_scenario_eval T0 T1 now hgrace hfresh]
  rfl

/-- Witness for `grace_finalize_spec` at `T0 = 0`, `T1 = 3600000`,
`now = 7200000`. -/
theorem grace_finalize_spec_witness :
    (graceSweep 7200000 (graceScenario 0 3600000)).entries =
      [{ regEntry 0 with
          clock_out := some 3600000,
          clock_out_lat := some 1,
          clock_out_lng := some 2,
          auto_clocked_out := true,
          auto_clockout_type := some "geofence",
          total_hours := some (((3600000 - 0 : Int) : ℚ) / 3600000),
          geofence_exit_data := some ⟨120, 30, 90, 50⟩ }] :=
  grace_finalize_spec 0 3600000 7200000 (by norm_num) (by norm_num)

/-- C4: running the grace sweep twice on a state with one unresolved
`exit_detected` row (grace elapsed, no intervening change) performs exactly
one `clock_out` mutation and inserts exactly one notification: the first
run finalizes, the second run is a no-op. -/
theorem grace_idempotent (T0 T1 now : Int)
    (hgrace : T1 < now - 300000) (hfresh : now - 86400000 < T1) :
    graceSweep now (graceSweep now (graceScenario T0 T1)) =
      graceSweep now (graceScenario T0 T1) ∧
    (graceSweep now (graceScenario T0 T1)).notifications.length = 1 ∧
    (graceSweep now (graceScenario T0 T1)).entries.map ClockEntry.clock_out =
      [some T1] ∧
    (graceScenario T0 T1).notifications.length = 0 ∧
    (graceScenario T0 T1).entries.map ClockEntry.clock_out = [none] := by
  have h := graceSweep_scenario_eval T0 T1 now hgrace hfresh
  refine ⟨?_, by rw [h]; rfl, by rw [h]; rfl, rfl, rfl⟩
  rw [h]
  refine graceSweep_no_exits now _ (fun e he => ?_)
  have : e = confirmedEv T1 := by simpa using he
  rw [this]
  simp [confirmedEv]

/-- Witness for `grace_idempotent` at `T0 = 0`, `T1 = 3600000`,
`now = 7200000`. -/
theorem grace_idempotent_witness :
    graceSweep 7200000 (graceSweep 7200000 (graceScenario 0 3600000)) =
      graceSweep 7200000 (graceScenario 0 3600000) ∧
    (graceSweep 7200000 (graceScenario 0 3600000)).notifications.length = 1 :=
  ⟨(grace_idempotent 0 3600000 7200000 (by norm_num) (by norm_num)).1,
   (grace_idempotent 0 3600000 7200000 (by norm_num) (by norm_num)).2.1⟩

namespace Autotime

/-- A later `location_fix` for the same session at `T2`, `dist` metres from
center with accuracy `acc`. -/
def fixEv (T2 : Int) (dist acc : ℚ) : GeofenceEvent :=
  { id := 20, worker_id := 7, clock_entry_id := 1, event_type := .location_fix,
    latitude := 1, longitude := 2, accuracy := acc, distance_from_center := dist,
    job_radius := 50, safe_out_threshold := 90, timestamp := T2,
    resolved_at := none }

/-- Pending exit at `T1` plus a later fix at `T2`. -/
def reentryScenario (T0 T1 T2 : Int) (dist acc : ℚ) : DBState :=
  ⟨[regEntry T0], [exitEv T1, fixEv T2 dist acc], []⟩

end Autotime

/-- C5: when a later `location_fix` shows the worker back inside the radius
(`distance_from_center ≤ job_radius`, `accuracy ≤ 50`), the grace resolver
does not touch the session (no `clock_out` mutation, no notification),
writes a `re_entry` event, and discards the pending exit row. -/
theorem grace_reentry_spec (T0 T1 T2 now : Int) (dist acc : ℚ)
    (hgrace : T1 < now - 300000) (hfresh : now - 86400000 < T1)
    (hafter : T1 < T2) (hin : dist ≤ 50) (hacc : acc ≤ 50) :
    (graceSweep now (reentryScenario T0 T1 T2 dist acc)).entries =
      [regEntry T0] ∧
    (graceSweep now (reentryScenario T0 T1 T2 dist acc)).events.map
        GeofenceEvent.event_type = [.location_fix, .re_entry] ∧
    (graceSweep now (reentryScenario T0 T1 T2 dist acc)).notifications = [] := by
  have h3 : ¬ T1 < now - 86400000 := by omega
  have h4 : now ≤ T1 + 86400000 := by omega
  refine ⟨?_, ?_, ?_⟩ <;>
    simp [graceSweep, reentryScenario, processExit, regEntry, exitEv, fixEv,
      graceUpdateRow, freshEventId, jsOr, ACCURACY_PASS_M,
      AUTO_DELAY_MS, GRACE_MINUTES, RACE_BUFFER_SEC, List.filter_cons,
      List.filter_nil, List.foldl_cons, List.foldl_nil, List.any_cons,
      List.any_nil, List.find?_cons, hgrace, hfresh, h3, h4, hafter, hin, hacc]

/-- Witness for `grace_reentry_spec`: exit at 3600000 ms, fix back inside at
3700000 ms (10 m out, 5 m accuracy), sweep at 7200000 ms. -/
theorem grace_reentry_spec_witness :
    (graceSweep 7200000 (reentryScenario 0 3600000 3700000 10 5)).entries =
      [regEntry 0] ∧
    (graceSweep 7200000 (reentryScenario 0 3600000 3700000 10 5)).events.map
        GeofenceEvent.event_type = [.location_fix, .re_entry] :=
  ⟨(grace_reentry_spec 0 3600000 3700000 7200000 10 5 (by norm_num)
      (by norm_num) (by norm_num) (by norm_num) (by norm_num)).1,
   (grace_reentry_spec 0 3600000 3700000 7200000 10 5 (by norm_num)
      (by norm_num) (by norm_num) (by norm_num) (by norm_num)).2.1⟩
